import Mathlib

/-!
Verification of the sound-file handle module (`Dependencies/content/src/API.cpp`).

The module wraps three audio decoder backends (dr_wav, dr_flac, stb_vorbis)
behind a single `SoundFileHandle` class.  We embed the module shallowly:

* The file system and the three backends are external collaborators; they are
  modelled by an abstract environment `Env` that says, for each path, whether
  the file can be opened for reading and what each backend's open routine
  returns (the native metadata on success, or failure).
* Paths are lists of characters, so that the extension scan
  (`std::string::find_last_of` / `substr`) can be modelled directly.
* The constructor, destructor and the exported C API functions are translated
  from the source.  Backend open/close events are recorded as lists so that
  resource hygiene can be stated.
-/

set_option autoImplicit false

/-- The error taxonomy, source `enum class SoundError` (API.cpp:27-33). -/
inductive SoundError where
  | noError
  | fileNotFound
  | unknownType
  | invalidFile
deriving DecidableEq

/-- The stable numeric codes of `SoundError` (the `int32_t` enum values). -/
def SoundError.toInt : SoundError → Int
  | .noError => 0
  | .fileNotFound => 1
  | .unknownType => 2
  | .invalidFile => 3

/-- The file-type tag, source `enum FileType` (API.cpp:50-56). -/
inductive FileType where
  | unknown
  | wav
  | flac
  | vorbis
deriving DecidableEq

/-- The stable numeric codes of `FileType` (the `int32_t` enum values). -/
def FileType.toInt : FileType → Int
  | .unknown => 0
  | .wav => 1
  | .flac => 2
  | .vorbis => 3

/-- The fields of a successfully initialized `drwav` object that the module
reads (`totalPCMFrameCount`, `sampleRate`, `channels`). -/
structure DrwavData where
  totalPCMFrameCount : Nat
  sampleRate : Nat
  channels : Nat
deriving DecidableEq

/-- The fields of a successfully opened `drflac` object that the module
reads (`totalPCMFrameCount`, `sampleRate`, `channels`). -/
structure DrflacData where
  totalPCMFrameCount : Nat
  sampleRate : Nat
  channels : Nat
deriving DecidableEq

/-- The result of `stb_vorbis_get_info` as far as the module reads it
(`sample_rate` and `channels`). -/
structure StbVorbisInfo where
  sample_rate : Nat
  channels : Nat
deriving DecidableEq

/-- A successfully opened `stb_vorbis` decoder, described by what the two
query calls the module makes return: `stb_vorbis_get_info` and
`stb_vorbis_stream_length_in_samples` (total interleaved sample count). -/
structure VorbisData where
  info : StbVorbisInfo
  streamLengthInSamples : Nat
deriving DecidableEq

/-- The decoder backends and the file system, treated as external
collaborators: for each path, whether an `std::ifstream` on it opens, and
what each backend's open-by-path routine yields (`none` models a null /
failed open, `some d` a live native decoder object with metadata `d`). -/
structure Env where
  fileReadable : List Char → Bool
  wavOpen : List Char → Option DrwavData
  flacOpen : List Char → Option DrflacData
  vorbisOpen : List Char → Option VorbisData

/-- Modelled from the spec: the backends are consumed as black boxes, and
well-formed containers never report a zero channel count or sample rate
("For all successfully opened handles: `info().channelCount >= 1` and
`info().sampleRate >= 1`").  This predicate states that assumption about an
environment's backends. -/
def Env.wellFormed (env : Env) : Prop :=
  (∀ f d, env.wavOpen f = some d → 1 ≤ d.channels ∧ 1 ≤ d.sampleRate) ∧
  (∀ f d, env.flacOpen f = some d → 1 ≤ d.channels ∧ 1 ≤ d.sampleRate) ∧
  (∀ f d, env.vorbisOpen f = some d →
    1 ≤ d.info.channels ∧ 1 ≤ d.info.sample_rate)

/-- The anonymous pointer union inside `SoundFileHandle` (API.cpp:162-167).
The union is initialized to `nullptr` (`null` here) and, in every state the
module constructs, holds at most one live decoder object. -/
inductive Resource where
  | null
  | wav (d : DrwavData)
  | flac (d : DrflacData)
  | vorbis (d : VorbisData)
deriving DecidableEq

/-- Whether the union holds a live (non-null) decoder object. -/
def Resource.isLive : Resource → Bool
  | .null => false
  | _ => true

/-- How many live decoder variants the union holds (0 or 1 by construction
of the sum type, mirroring the mutual exclusion of the C union's arms). -/
def Resource.liveCount : Resource → Nat
  | .null => 0
  | _ => 1

/-- The normalized metadata struct, source `struct SoundFileInfo`
(API.cpp:36-42).  `info_{ }` value-initialization corresponds to all-zero. -/
structure SoundFileInfo where
  totalFrames : Nat
  sampleRate : Nat
  channels : Nat
deriving DecidableEq

/-- The handle's fields, source class `SoundFileHandle` (API.cpp:159-169). -/
structure SoundFileHandle where
  type_ : FileType
  fileName_ : List Char
  handle_ : Resource
  info_ : SoundFileInfo
  lastError_ : SoundError
deriving DecidableEq

/-- A backend open/close event tag, used to record which backend's native
open routine ran and which backend's teardown routine the destructor calls. -/
inductive Backend where
  | wav
  | flac
  | vorbis
deriving DecidableEq

/-- Index of the last occurrence of `c` in `xs`
(`std::string::find_last_of`; `none` models `npos`). -/
def lastIndexOf (xs : List Char) (c : Char) : Option Nat :=
  match xs with
  | [] => none
  | x :: rest =>
    match lastIndexOf rest c with
    | some i => some (i + 1)
    | none => if x = c then some 0 else none

/-- The chained conditional assigning `type_` from the extension substring
(API.cpp:81-84): a case-sensitive comparison against `".wav"`, `".flac"`
and `".ogg"`. -/
def extToType (ext : List Char) : FileType :=
  if ext = ".wav".data then .wav
  else if ext = ".flac".data then .flac
  else if ext = ".ogg".data then .vorbis
  else .unknown

/-- The file-type detection block of the constructor (API.cpp:73-89):
find the last `'.'`; no dot means `TYPE_UNKNOWN`, otherwise the suffix of
the path starting at the dot (`file.substr(extPos)`) selects the type. -/
def detectType (file : List Char) : FileType :=
  match lastIndexOf file '.' with
  | none => .unknown
  | some extPos => extToType (file.drop extPos)

/-- The constructor `SoundFileHandle::SoundFileHandle` (API.cpp:59-137),
paired with the list of successful backend opens it performed on behalf of
the handle (a failed `drwav_init_file` / `drflac_open_file` /
`stb_vorbis_open_filename` yields no native resource, so only successful
opens appear).  The member initializer list gives `h0`; the backend dispatch
(lines 91-115) and the metadata load (lines 117-136) of the source run
back-to-back for one and the same type tag, and are merged per branch here.
On the wav failure path the partially allocated `drwav` object is deleted
and the union arm reset to null (lines 95-96), so every failure branch holds
a null resource. -/
def SoundFileHandle.init (env : Env) (file : List Char) :
    SoundFileHandle × List Backend :=
  let h0 : SoundFileHandle :=
    { type_ := .unknown, fileName_ := file, handle_ := .null,
      info_ := ⟨0, 0, 0⟩, lastError_ := .noError }
  if env.fileReadable file then
    match detectType file with
    | .unknown => ({ h0 with lastError_ := .unknownType }, [])
    | .wav =>
      match env.wavOpen file with
      | none => ({ h0 with type_ := .wav, lastError_ := .invalidFile }, [])
      | some d =>
        ({ h0 with
            type_ := .wav, handle_ := Resource.wav d,
            info_ := ⟨d.totalPCMFrameCount, d.sampleRate, d.channels⟩,
            lastError_ := .noError }, [.wav])
    | .flac =>
      match env.flacOpen file with
      | none => ({ h0 with type_ := .flac, lastError_ := .invalidFile }, [])
      | some d =>
        ({ h0 with
            type_ := .flac, handle_ := Resource.flac d,
            info_ := ⟨d.totalPCMFrameCount, d.sampleRate, d.channels⟩,
            lastError_ := .noError }, [.flac])
    | .vorbis =>
      match env.vorbisOpen file with
      | none => ({ h0 with type_ := .vorbis, lastError_ := .invalidFile }, [])
      | some d =>
        ({ h0 with
            type_ := .vorbis, handle_ := Resource.vorbis d,
            info_ := ⟨d.streamLengthInSamples / d.info.channels,
              d.info.sample_rate, d.info.channels⟩,
            lastError_ := .noError }, [.vorbis])
  else
    ({ h0 with lastError_ := .fileNotFound }, [])

/-- The destructor `SoundFileHandle::~SoundFileHandle` (API.cpp:138-150):
for the type tag whose guard matches and whose union pointer is non-null, the
corresponding backend teardown (`drwav_uninit`+`delete` / `drflac_close` /
`stb_vorbis_close`) runs; otherwise nothing.  Returns the teardown events. -/
def SoundFileHandle.destroy (h : SoundFileHandle) : List Backend :=
  if h.type_ = .wav ∧ h.handle_.isLive then [.wav]
  else if h.type_ = .flac ∧ h.handle_.isLive then [.flac]
  else if h.type_ = .vorbis ∧ h.handle_.isLive then [.vorbis]
  else []

/-- Query `type()` (API.cpp:153): a const member function, modelled as
returning its value together with the handle state it leaves behind. -/
def SoundFileHandle.type (h : SoundFileHandle) : FileType × SoundFileHandle :=
  (h.type_, h)

/-- Query `fileName()` (API.cpp:154). -/
def SoundFileHandle.fileName (h : SoundFileHandle) :
    List Char × SoundFileHandle :=
  (h.fileName_, h)

/-- Query `info()` (API.cpp:155). -/
def SoundFileHandle.info (h : SoundFileHandle) :
    SoundFileInfo × SoundFileHandle :=
  (h.info_, h)

/-- Query `hasError()` (API.cpp:156): `lastError_ != SoundError::NO_ERROR`. -/
def SoundFileHandle.hasError (h : SoundFileHandle) : Bool × SoundFileHandle :=
  (match h.lastError_ with | .noError => false | _ => true, h)

/-- Query `error()` (API.cpp:157). -/
def SoundFileHandle.error (h : SoundFileHandle) :
    SoundError × SoundFileHandle :=
  (h.lastError_, h)

/-- Export `soundGetFileType` (API.cpp:175-178): `int32_t(file->type())`. -/
def soundGetFileType (h : SoundFileHandle) : Int × SoundFileHandle :=
  ((h.type).1.toInt, (h.type).2)

/-- Export `soundGetFileName` (API.cpp:181-184). -/
def soundGetFileName (h : SoundFileHandle) : List Char × SoundFileHandle :=
  h.fileName

/-- Export `soundGetError` (API.cpp:187-190): `int32_t(file->error())`. -/
def soundGetError (h : SoundFileHandle) : Int × SoundFileHandle :=
  ((h.error).1.toInt, (h.error).2)

/-- Export `soundGetFrameCount` (API.cpp:193-196). -/
def soundGetFrameCount (h : SoundFileHandle) : Nat × SoundFileHandle :=
  ((h.info).1.totalFrames, (h.info).2)

/-- Export `soundGetSampleRate` (API.cpp:199-202). -/
def soundGetSampleRate (h : SoundFileHandle) : Nat × SoundFileHandle :=
  ((h.info).1.sampleRate, (h.info).2)

/-- Export `soundGetChannelCount` (API.cpp:205-208). -/
def soundGetChannelCount (h : SoundFileHandle) : Nat × SoundFileHandle :=
  ((h.info).1.channels, (h.info).2)

/-- Export `soundGetInfo` (API.cpp:211-216): writes frame count, sample rate
and channel count through the three out-pointers, modelled as a returned
triple. -/
def soundGetInfo (h : SoundFileHandle) :
    (Nat × Nat × Nat) × SoundFileHandle :=
  (((h.info).1.totalFrames, (h.info).1.sampleRate, (h.info).1.channels),
   (h.info).2)

/-- Export `soundOpenFile` (API.cpp:219-228): construct a handle, write its
error code through the out-parameter, and on any error delete the handle
(running the destructor) and return null.  The result is the returned handle
(`none` models `nullptr`), the error code written, and the backend teardown
events of the internal `delete`. -/
def soundOpenFile (env : Env) (file : List Char) :
    Option SoundFileHandle × Int × List Backend :=
  let handle := (SoundFileHandle.init env file).1
  let err := (handle.error).1.toInt
  if (handle.hasError).1 then (none, err, handle.destroy)
  else (some handle, err, [])

/-- Export `soundCloseFile` (API.cpp:231-234): `delete file`, which runs the
destructor.  Returns the backend teardown events. -/
def soundCloseFile (h : SoundFileHandle) : List Backend :=
  h.destroy

/-- Guarded integer division: `none` exactly when the divisor is zero. -/
def checkedDiv (a b : Nat) : Option Nat :=
  if b = 0 then none else some (a / b)

/-- The constructor again, as a total function with guarded division: the
one expression of the source whose totality depends on backend-reported
data, the Vorbis frame-count derivation `count / info.channels`
(API.cpp:131), is routed through `checkedDiv`, and the whole construction
fails (`none`) when its divisor is zero.  All other branches agree with
`SoundFileHandle.init`. -/
def SoundFileHandle.initChecked (env : Env) (file : List Char) :
    Option SoundFileHandle :=
  let h0 : SoundFileHandle :=
    { type_ := .unknown, fileName_ := file, handle_ := .null,
      info_ := ⟨0, 0, 0⟩, lastError_ := .noError }
  if env.fileReadable file then
    match detectType file with
    | .unknown => some { h0 with lastError_ := .unknownType }
    | .wav =>
      match env.wavOpen file with
      | none => some { h0 with type_ := .wav, lastError_ := .invalidFile }
      | some d =>
        some { h0 with
          type_ := .wav, handle_ := Resource.wav d,
          info_ := ⟨d.totalPCMFrameCount, d.sampleRate, d.channels⟩,
          lastError_ := .noError }
    | .flac =>
      match env.flacOpen file with
      | none => some { h0 with type_ := .flac, lastError_ := .invalidFile }
      | some d =>
        some { h0 with
          type_ := .flac, handle_ := Resource.flac d,
          info_ := ⟨d.totalPCMFrameCount, d.sampleRate, d.channels⟩,
          lastError_ := .noError }
    | .vorbis =>
      match env.vorbisOpen file with
      | none => some { h0 with type_ := .vorbis, lastError_ := .invalidFile }
      | some d =>
        match checkedDiv d.streamLengthInSamples d.info.channels with
        | none => none
        | some frames =>
          some { h0 with
            type_ := .vorbis, handle_ := Resource.vorbis d,
            info_ := ⟨frames, d.info.sample_rate, d.info.channels⟩,
            lastError_ := .noError }
  else
    some { h0 with lastError_ := .fileNotFound }

/-- An environment in which no path is readable: every open attempt hits a
missing or unreadable file. -/
def missingEnv : Env where
  fileReadable := fun _ => false
  wavOpen := fun _ => none
  flacOpen := fun _ => none
  vorbisOpen := fun _ => none

/-- An environment in which every file is readable but every backend rejects
its content (malformed containers everywhere). -/
def corruptEnv : Env where
  fileReadable := fun _ => true
  wavOpen := fun _ => none
  flacOpen := fun _ => none
  vorbisOpen := fun _ => none

/-- An environment holding the concrete scenario of the spec: every path is
readable and the Vorbis backend reports 2 channels, a 44100 Hz sample rate
and 88200 total interleaved samples. -/
def songEnv : Env where
  fileReadable := fun _ => true
  wavOpen := fun _ => none
  flacOpen := fun _ => none
  vorbisOpen := fun _ => some ⟨⟨44100, 2⟩, 88200⟩

/-- An environment in which every file is readable and every backend opens
successfully with fixed well-formed metadata. -/
def fullEnv : Env where
  fileReadable := fun _ => true
  wavOpen := fun _ => some ⟨100, 48000, 2⟩
  flacOpen := fun _ => some ⟨200, 44100, 1⟩
  vorbisOpen := fun _ => some ⟨⟨44100, 2⟩, 88200⟩

/-- An environment whose Vorbis backend opens successfully but reports a
zero channel count (a degenerate stream description). -/
def zeroChannelEnv : Env where
  fileReadable := fun _ => true
  wavOpen := fun _ => none
  flacOpen := fun _ => none
  vorbisOpen := fun _ => some ⟨⟨44100, 0⟩, 88200⟩

theorem lastIndexOf_eq_none_iff (xs : List Char) (c : Char) :
    lastIndexOf xs c = none ↔ c ∉ xs := by
  induction xs with
  | nil => simp [lastIndexOf]
  | cons x rest ih =>
    rw [lastIndexOf]
    cases h : lastIndexOf rest c with
    | some i => simp only [h] at ih ⊢; simp_all [List.mem_cons]
    | none =>
      simp only [h] at ih ⊢
      by_cases hx : x = c <;> simp_all [List.mem_cons, eq_comm]

theorem lastIndexOf_append_some (xs ys : List Char) (c : Char) (i : Nat)
    (h : lastIndexOf ys c = some i) :
    lastIndexOf (xs ++ ys) c = some (xs.length + i) := by
  induction xs with
  | nil => simpa using h
  | cons x rest ih =>
    rw [List.cons_append, lastIndexOf, ih]
    simp only [List.length_cons]
    congr 1
    omega

theorem detectType_of_not_mem (file : List Char) (h : '.' ∉ file) :
    detectType file = .unknown := by
  rw [detectType, (lastIndexOf_eq_none_iff file '.').mpr h]

theorem detectType_append (ys ext : List Char)
    (h : lastIndexOf ext '.' = some 0) :
    detectType (ys ++ ext) = extToType ext := by
  rw [detectType, lastIndexOf_append_some ys ext '.' 0 h]
  simp

theorem extToType_eq_wav_iff (ext : List Char) :
    extToType ext = .wav ↔ ext = ".wav".data := by
  unfold extToType
  split_ifs <;> simp_all

theorem extToType_eq_flac_iff (ext : List Char) :
    extToType ext = .flac ↔ ext = ".flac".data := by
  unfold extToType
  split_ifs <;> simp_all

theorem extToType_eq_vorbis_iff (ext : List Char) :
    extToType ext = .vorbis ↔ ext = ".ogg".data := by
  unfold extToType
  split_ifs <;> simp_all

theorem detectType_eq_wav_iff (file : List Char) :
    detectType file = .wav ↔ ".wav".data <:+ file := by
  constructor
  · intro h
    rw [detectType] at h
    cases hl : lastIndexOf file '.' with
    | none => rw [hl] at h; cases h
    | some p =>
      rw [hl] at h
      rw [← (extToType_eq_wav_iff _).mp h]
      exact List.drop_suffix p file
  · rintro ⟨t, rfl⟩
    rw [detectType_append t _ (by decide)]
    decide

theorem detectType_eq_flac_iff (file : List Char) :
    detectType file = .flac ↔ ".flac".data <:+ file := by
  constructor
  · intro h
    rw [detectType] at h
    cases hl : lastIndexOf file '.' with
    | none => rw [hl] at h; cases h
    | some p =>
      rw [hl] at h
      rw [← (extToType_eq_flac_iff _).mp h]
      exact List.drop_suffix p file
  · rintro ⟨t, rfl⟩
    rw [detectType_append t _ (by decide)]
    decide

theorem detectType_eq_vorbis_iff (file : List Char) :
    detectType file = .vorbis ↔ ".ogg".data <:+ file := by
  constructor
  · intro h
    rw [detectType] at h
    cases hl : lastIndexOf file '.' with
    | none => rw [hl] at h; cases h
    | some p =>
      rw [hl] at h
      rw [← (extToType_eq_vorbis_iff _).mp h]
      exact List.drop_suffix p file
  · rintro ⟨t, rfl⟩
    rw [detectType_append t _ (by decide)]
    decide

theorem detectType_eq_unknown_iff (file : List Char) :
    detectType file = .unknown ↔
      ¬ ".wav".data <:+ file ∧ ¬ ".flac".data <:+ file ∧
      ¬ ".ogg".data <:+ file := by
  rw [← detectType_eq_wav_iff, ← detectType_eq_flac_iff,
    ← detectType_eq_vorbis_iff]
  cases detectType file <;> simp

theorem init_type_of_readable (env : Env) (file : List Char)
    (h : env.fileReadable file = true) :
    (SoundFileHandle.init env file).1.type_ = detectType file := by
  cases hd : detectType file
  · simp [SoundFileHandle.init, h, hd]
  · cases ho : env.wavOpen file <;> simp [SoundFileHandle.init, h, hd, ho]
  · cases ho : env.flacOpen file <;> simp [SoundFileHandle.init, h, hd, ho]
  · cases ho : env.vorbisOpen file <;> simp [SoundFileHandle.init, h, hd, ho]

/-- C1: failure modes are checked in the fixed order {file access,
extension-based format detection, backend open}; the first failure wins.  An
unreadable or missing file yields `FileNotFound` with the format left
`Unknown` and no resource held, whatever its extension and whatever the
backends would say; a readable file with an unrecognized extension yields
`UnknownFormat` regardless of content (any backends), never `InvalidFile`. -/
theorem c1_first_failure_wins (env : Env) (file : List Char) :
    (env.fileReadable file = false →
      (SoundFileHandle.init env file).1.lastError_ = .fileNotFound ∧
      (SoundFileHandle.init env file).1.type_ = .unknown ∧
      (SoundFileHandle.init env file).1.handle_ = .null) ∧
    (env.fileReadable file = true → detectType file = .unknown →
      (SoundFileHandle.init env file).1.lastError_ = .unknownType ∧
      (SoundFileHandle.init env file).1.lastError_ ≠ .invalidFile) := by
  constructor
  · intro h
    simp [SoundFileHandle.init, h]
  · intro h hd
    simp [SoundFileHandle.init, h, hd]

/-- Witness for C1: an unreadable path (extension also unrecognized) reports
`FileNotFound`; a readable path with extension `.txt` reports
`UnknownFormat` even though every backend in `fullEnv` would succeed. -/
theorem c1_first_failure_wins_witness :
    (SoundFileHandle.init missingEnv "missing.bad".data).1.lastError_ =
      .fileNotFound ∧
    (SoundFileHandle.init fullEnv "notes.txt".data).1.lastError_ =
      .unknownType :=
  ⟨((c1_first_failure_wins missingEnv "missing.bad".data).1 (by decide)).1,
   ((c1_first_failure_wins fullEnv "notes.txt".data).2 (by decide)
     (by decide)).1⟩

/-- C3: for every constructed handle, the resource union is live (non-null)
if and only if `lastError == None` and the format is not `Unknown`; and the
union never holds more than one live variant. -/
theorem c3_resource_iff_success (env : Env) (file : List Char) :
    ((SoundFileHandle.init env file).1.handle_.isLive = true ↔
      ((SoundFileHandle.init env file).1.lastError_ = .noError ∧
       (SoundFileHandle.init env file).1.type_ ≠ .unknown)) ∧
    (SoundFileHandle.init env file).1.handle_.liveCount ≤ 1 := by
  cases hr : env.fileReadable file
  · simp [SoundFileHandle.init, hr, Resource.isLive, Resource.liveCount]
  · cases hd : detectType file
    · simp [SoundFileHandle.init, hr, hd, Resource.isLive, Resource.liveCount]
    · cases ho : env.wavOpen file <;>
        simp [SoundFileHandle.init, hr, hd, ho, Resource.isLive,
          Resource.liveCount]
    · cases ho : env.flacOpen file <;>
        simp [SoundFileHandle.init, hr, hd, ho, Resource.isLive,
          Resource.liveCount]
    · cases ho : env.vorbisOpen file <;>
        simp [SoundFileHandle.init, hr, hd, ho, Resource.isLive,
          Resource.liveCount]

/-- C7: whenever construction fails (any of the three failure modes), the
normalized metadata fields `totalFrames`, `sampleRate` and `channelCount`
all hold zero. -/
theorem c7_failed_handle_zero_metadata (env : Env) (file : List Char)
    (h : (SoundFileHandle.init env file).1.lastError_ ≠ .noError) :
    (SoundFileHandle.init env file).1.info_.totalFrames = 0 ∧
    (SoundFileHandle.init env file).1.info_.sampleRate = 0 ∧
    (SoundFileHandle.init env file).1.info_.channels = 0 := by
  cases hr : env.fileReadable file
  · simp [SoundFileHandle.init, hr]
  · cases hd : detectType file
    · simp [SoundFileHandle.init, hr, hd]
    · cases ho : env.wavOpen file <;> simp_all [SoundFileHandle.init, hr, hd, ho]
    · cases ho : env.flacOpen file <;> simp_all [SoundFileHandle.init, hr, hd, ho]
    · cases ho : env.vorbisOpen file <;> simp_all [SoundFileHandle.init, hr, hd, ho]

/-- Witness for C7: a handle whose open failed with `FileNotFound` carries
all-zero metadata. -/
theorem c7_failed_handle_zero_metadata_witness :
    (SoundFileHandle.init missingEnv "missing.wav".data).1.info_.totalFrames
      = 0 ∧
    (SoundFileHandle.init missingEnv "missing.wav".data).1.info_.sampleRate
      = 0 ∧
    (SoundFileHandle.init missingEnv "missing.wav".data).1.info_.channels
      = 0 :=
  c7_failed_handle_zero_metadata missingEnv "missing.wav".data (by decide)

/-- C2: on backend-open success the normalized metadata is populated as the
source reads it: for Wav and Flac the backend's total frame count, sample
rate and channel count are copied directly; for Vorbis the total interleaved
sample count is divided (integer division) by the channel count.  In the
concrete scenario of a valid Vorbis file with 2 channels, 44100 Hz and
88200 total samples, `type()` is Vorbis, `error()` is None and `info()` is
(44100 frames, 44100, 2). -/
theorem c2_metadata_normalization (env : Env) (file : List Char) :
    (∀ d, env.fileReadable file = true → detectType file = .wav →
      env.wavOpen file = some d →
      (SoundFileHandle.init env file).1.info_ =
        ⟨d.totalPCMFrameCount, d.sampleRate, d.channels⟩ ∧
      (SoundFileHandle.init env file).1.lastError_ = .noError) ∧
    (∀ d, env.fileReadable file = true → detectType file = .flac →
      env.flacOpen file = some d →
      (SoundFileHandle.init env file).1.info_ =
        ⟨d.totalPCMFrameCount, d.sampleRate, d.channels⟩ ∧
      (SoundFileHandle.init env file).1.lastError_ = .noError) ∧
    (∀ d, env.fileReadable file = true → detectType file = .vorbis →
      env.vorbisOpen file = some d →
      (SoundFileHandle.init env file).1.info_ =
        ⟨d.streamLengthInSamples / d.info.channels,
          d.info.sample_rate, d.info.channels⟩ ∧
      (SoundFileHandle.init env file).1.lastError_ = .noError) ∧
    (((SoundFileHandle.init songEnv "song.ogg".data).1.type).1 = .vorbis ∧
     ((SoundFileHandle.init songEnv "song.ogg".data).1.error).1 = .noError ∧
     ((SoundFileHandle.init songEnv "song.ogg".data).1.info).1 =
       ⟨44100, 44100, 2⟩) := by
  refine ⟨?_, ?_, ?_, by decide⟩ <;>
    (intro d h1 h2 h3; simp [SoundFileHandle.init, h1, h2, h3])

/-- Witness for C2: the Vorbis clause applied to the concrete scenario
environment yields the normalized metadata 88200 / 2 = 44100 frames. -/
theorem c2_metadata_normalization_witness :
    (SoundFileHandle.init songEnv "song.ogg".data).1.info_ =
      ⟨88200 / 2, 44100, 2⟩ ∧
    (SoundFileHandle.init songEnv "song.ogg".data).1.lastError_ =
      .noError :=
  (c2_metadata_normalization songEnv "song.ogg".data).2.2.1
    ⟨⟨44100, 2⟩, 88200⟩ (by decide) (by decide) (by decide)

/-- C4: for a readable path the detected format comes from the path's
extension suffix by the fixed case-sensitive mapping `.wav -> Wav`,
`.flac -> Flac`, `.ogg -> Vorbis`; any other suffix, or a path without a
dot, yields `Unknown`, in which case the error is `UnknownFormat` and no
resource is held; and a successfully opened handle's `type()` equals the
format implied by the extension. -/
theorem c4_extension_determines_type (env : Env) (file : List Char)
    (h : env.fileReadable file = true) :
    (".wav".data <:+ file →
      (SoundFileHandle.init env file).1.type_ = .wav) ∧
    (".flac".data <:+ file →
      (SoundFileHandle.init env file).1.type_ = .flac) ∧
    (".ogg".data <:+ file →
      (SoundFileHandle.init env file).1.type_ = .vorbis) ∧
    ((¬ ".wav".data <:+ file ∧ ¬ ".flac".data <:+ file ∧
      ¬ ".ogg".data <:+ file) →
      (SoundFileHandle.init env file).1.type_ = .unknown ∧
      (SoundFileHandle.init env file).1.lastError_ = .unknownType ∧
      (SoundFileHandle.init env file).1.handle_ = .null) ∧
    ('.' ∉ file →
      (SoundFileHandle.init env file).1.type_ = .unknown ∧
      (SoundFileHandle.init env file).1.lastError_ = .unknownType) ∧
    ((SoundFileHandle.init env file).1.lastError_ = .noError →
      ((SoundFileHandle.init env file).1.type).1 = detectType file) := by
  have ht := init_type_of_readable env file h
  refine ⟨?_, ?_, ?_, ?_, ?_, ?_⟩
  · intro hs
    rw [ht, detectType_eq_wav_iff]
    exact hs
  · intro hs
    rw [ht, detectType_eq_flac_iff]
    exact hs
  · intro hs
    rw [ht, detectType_eq_vorbis_iff]
    exact hs
  · intro hs
    have hd : detectType file = .unknown := (detectType_eq_unknown_iff file).mpr hs
    refine ⟨ht.trans hd, ?_, ?_⟩ <;> simp [SoundFileHandle.init, h, hd]
  · intro hs
    have hd : detectType file = .unknown := detectType_of_not_mem file hs
    refine ⟨ht.trans hd, ?_⟩
    simp [SoundFileHandle.init, h, hd]
  · intro _
    exact ht

/-- Witness for C4: a `.wav` path is typed Wav, and a `.txt` path is
rejected as `UnknownFormat`, under a readable file system with all backends
succeeding. -/
theorem c4_extension_determines_type_witness :
    (SoundFileHandle.init fullEnv "a.wav".data).1.type_ = .wav ∧
    (SoundFileHandle.init fullEnv "notes.txt".data).1.lastError_ =
      .unknownType :=
  ⟨(c4_extension_determines_type fullEnv "a.wav".data (by decide)).1
    (by decide),
   ((c4_extension_determines_type fullEnv "notes.txt".data (by decide)).2.2.2.1
    (by decide)).2.1⟩

/-- C5: `soundOpenFile` writes the handle's numeric error code (0 = None,
1 = FileNotFound, 2 = UnknownFormat, 3 = InvalidFile) through the
out-parameter and returns a non-null handle exactly when the code is 0; on
any non-zero code the internally constructed handle is destroyed (its
destructor teardown events run) and null is returned. -/
theorem c5_boundary_open_contract (env : Env) (file : List Char) :
    ((soundOpenFile env file).1.isSome ↔ (soundOpenFile env file).2.1 = 0) ∧
    ((soundOpenFile env file).2.1 =
      (SoundFileHandle.init env file).1.lastError_.toInt) ∧
    (SoundError.toInt .noError = 0 ∧ SoundError.toInt .fileNotFound = 1 ∧
     SoundError.toInt .unknownType = 2 ∧ SoundError.toInt .invalidFile = 3) ∧
    ((soundOpenFile env file).2.1 ≠ 0 →
      (soundOpenFile env file).1 = none ∧
      (soundOpenFile env file).2.2 =
        (SoundFileHandle.init env file).1.destroy) ∧
    ((soundOpenFile env file).2.1 = 0 →
      (soundOpenFile env file).1 = some (SoundFileHandle.init env file).1) := by
  cases he : (SoundFileHandle.init env file).1.lastError_ <;>
    simp [soundOpenFile, SoundFileHandle.hasError, SoundFileHandle.error,
      SoundError.toInt, he]

/-- Witness for C5: a missing file yields a null handle with its destructor
run, and the valid Vorbis scenario yields the constructed handle with
code 0. -/
theorem c5_boundary_open_contract_witness :
    (soundOpenFile missingEnv "missing.wav".data).1 = none ∧
    (soundOpenFile songEnv "song.ogg".data).1 =
      some (SoundFileHandle.init songEnv "song.ogg".data).1 :=
  ⟨((c5_boundary_open_contract missingEnv "missing.wav".data).2.2.2.1
      (by decide)).1,
   (c5_boundary_open_contract songEnv "song.ogg".data).2.2.2.2 (by decide)⟩

/-- C6: the destructor invokes, for whichever decoder variant is live in
the union, that backend's teardown exactly once before the handle is freed;
a handle with no live resource triggers no teardown; and for every
construction, the successful backend opens performed on behalf of the
handle are matched exactly by the destructor's backend closes. -/
theorem c6_teardown_matches_open (env : Env) (file : List Char) :
    ((SoundFileHandle.init env file).2 =
      (SoundFileHandle.init env file).1.destroy) ∧
    ((SoundFileHandle.init env file).1.destroy.length ≤ 1) ∧
    (∀ d, (SoundFileHandle.init env file).1.handle_ = Resource.wav d →
      (SoundFileHandle.init env file).1.destroy = [.wav]) ∧
    (∀ d, (SoundFileHandle.init env file).1.handle_ = Resource.flac d →
      (SoundFileHandle.init env file).1.destroy = [.flac]) ∧
    (∀ d, (SoundFileHandle.init env file).1.handle_ = Resource.vorbis d →
      (SoundFileHandle.init env file).1.destroy = [.vorbis]) ∧
    (∀ h : SoundFileHandle, h.handle_.isLive = false → h.destroy = []) := by
  have hnone : ∀ h : SoundFileHandle, h.handle_.isLive = false →
      h.destroy = [] := by
    intro h hl
    simp [SoundFileHandle.destroy, hl]
  refine ⟨?_, ?_, ?_, ?_, ?_, hnone⟩ <;>
  · cases hr : env.fileReadable file
    · simp [SoundFileHandle.init, hr, SoundFileHandle.destroy,
        Resource.isLive]
    · cases hd : detectType file
      · simp [SoundFileHandle.init, hr, hd, SoundFileHandle.destroy,
          Resource.isLive]
      · cases ho : env.wavOpen file <;>
          simp [SoundFileHandle.init, hr, hd, ho, SoundFileHandle.destroy,
            Resource.isLive]
      · cases ho : env.flacOpen file <;>
          simp [SoundFileHandle.init, hr, hd, ho, SoundFileHandle.destroy,
            Resource.isLive]
      · cases ho : env.vorbisOpen file <;>
          simp [SoundFileHandle.init, hr, hd, ho, SoundFileHandle.destroy,
            Resource.isLive]

/-- Witness for C6: the valid Vorbis scenario opens exactly the Vorbis
backend and its destructor closes exactly the Vorbis backend; a failed
handle holding no resource triggers no teardown. -/
theorem c6_teardown_matches_open_witness :
    (SoundFileHandle.init songEnv "song.ogg".data).1.destroy = [.vorbis] ∧
    (SoundFileHandle.init missingEnv "missing.wav".data).1.destroy = [] :=
  ⟨(c6_teardown_matches_open songEnv "song.ogg".data).2.2.2.2.1
      ⟨⟨44100, 2⟩, 88200⟩ (by decide),
   (c6_teardown_matches_open songEnv "song.ogg".data).2.2.2.2.2
      (SoundFileHandle.init missingEnv "missing.wav".data).1 (by decide)⟩

/-- C8: under well-formed backends (spec: well-formed containers never
report zero), every successfully opened handle satisfies
`info().channelCount >= 1` and `info().sampleRate >= 1`. -/
theorem c8_successful_handle_wellformed (env : Env) (file : List Char)
    (hw : env.wellFormed)
    (h : (SoundFileHandle.init env file).1.lastError_ = .noError) :
    1 ≤ ((SoundFileHandle.init env file).1.info).1.channels ∧
    1 ≤ ((SoundFileHandle.init env file).1.info).1.sampleRate := by
  obtain ⟨hwav, hflac, hvorbis⟩ := hw
  cases hr : env.fileReadable file
  · simp [SoundFileHandle.init, hr] at h
  · cases hd : detectType file
    · simp [SoundFileHandle.init, hr, hd] at h
    · cases ho : env.wavOpen file with
      | none => simp [SoundFileHandle.init, hr, hd, ho] at h
      | some d =>
        have := hwav file d ho
        simp [SoundFileHandle.init, SoundFileHandle.info, hr, hd, ho]
        omega
    · cases ho : env.flacOpen file with
      | none => simp [SoundFileHandle.init, hr, hd, ho] at h
      | some d =>
        have := hflac file d ho
        simp [SoundFileHandle.init, SoundFileHandle.info, hr, hd, ho]
        omega
    · cases ho : env.vorbisOpen file with
      | none => simp [SoundFileHandle.init, hr, hd, ho] at h
      | some d =>
        have := hvorbis file d ho
        simp [SoundFileHandle.init, SoundFileHandle.info, hr, hd, ho]
        omega

/-- Witness for C8: the concrete Vorbis scenario environment is well-formed
and its successfully opened handle reports 2 channels and rate 44100. -/
theorem c8_successful_handle_wellformed_witness :
    1 ≤ ((SoundFileHandle.init songEnv "song.ogg".data).1.info).1.channels ∧
    1 ≤ ((SoundFileHandle.init songEnv "song.ogg".data).1.info).1.sampleRate :=
  c8_successful_handle_wellformed songEnv "song.ogg".data
    (by
      refine ⟨?_, ?_, ?_⟩ <;> intro f d hd
      · simp [songEnv] at hd
      · simp [songEnv] at hd
      · simp [songEnv] at hd
        simp [← hd])
    (by decide)

/-- C9: every query operation (`type()`, `fileName()`, `info()`,
`error()`, `hasError()` and the exported accessors) is a pure read: it
leaves every field of the handle unchanged, and a repeated call returns the
identical value. -/
theorem c9_queries_are_pure_reads (h : SoundFileHandle) :
    ((h.type).2 = h ∧ (h.fileName).2 = h ∧ (h.info).2 = h ∧
     (h.error).2 = h ∧ (h.hasError).2 = h) ∧
    ((soundGetFileType h).2 = h ∧ (soundGetFileName h).2 = h ∧
     (soundGetError h).2 = h ∧ (soundGetFrameCount h).2 = h ∧
     (soundGetSampleRate h).2 = h ∧ (soundGetChannelCount h).2 = h ∧
     (soundGetInfo h).2 = h) ∧
    (((h.type).2.type).1 = (h.type).1 ∧
     ((h.fileName).2.fileName).1 = (h.fileName).1 ∧
     ((h.info).2.info).1 = (h.info).1 ∧
     ((h.error).2.error).1 = (h.error).1 ∧
     ((h.hasError).2.hasError).1 = (h.hasError).1) := by
  refine ⟨⟨rfl, rfl, rfl, rfl, rfl⟩, ⟨rfl, rfl, rfl, rfl, rfl, rfl, rfl⟩,
    rfl, rfl, rfl, rfl, rfl⟩

/-- C10: the Vorbis frame-count derivation divides the backend-reported
total sample count by the backend-reported channel count with no guard; in
the total embedding whose division is guarded, construction of a Vorbis
file is well-defined exactly when the backend reports at least one channel,
and agrees with the unguarded constructor in that case. -/
theorem c10_vorbis_division_guard (env : Env) (file : List Char)
    (d : VorbisData) (hr : env.fileReadable file = true)
    (hd : detectType file = .vorbis) (ho : env.vorbisOpen file = some d) :
    ((SoundFileHandle.initChecked env file).isSome ↔ 1 ≤ d.info.channels) ∧
    (1 ≤ d.info.channels →
      SoundFileHandle.initChecked env file =
        some (SoundFileHandle.init env file).1) ∧
    (d.info.channels = 0 → SoundFileHandle.initChecked env file = none) := by
  by_cases hc : d.info.channels = 0
  · simp [SoundFileHandle.initChecked, SoundFileHandle.init, checkedDiv,
      hr, hd, ho, hc]
  · simp [SoundFileHandle.initChecked, SoundFileHandle.init, checkedDiv,
      hr, hd, ho, hc]
    omega

/-- Witness for C10: in the concrete Vorbis scenario (2 channels) the
guarded constructor succeeds and agrees with the unguarded one. -/
theorem c10_vorbis_division_guard_witness :
    SoundFileHandle.initChecked songEnv "song.ogg".data =
      some (SoundFileHandle.init songEnv "song.ogg".data).1 :=
  (c10_vorbis_division_guard songEnv "song.ogg".data ⟨⟨44100, 2⟩, 88200⟩
    (by decide) (by decide) (by decide)).2.1 (by decide)
